import Mathlib

/-!
Shallow embedding of the deterministic core of the travelplanner repository:
the policy compliance checker (src/tools/policy_rag.py), the preference
extractor (src/tools/travel_history.py), and the ranking / package assembly
logic of simple mode (src/crew_setup_new.py).

Python machine floats are modelled by exact rationals extended with the three
special values inf, -inf and nan; IEEE rounding and overflow-to-infinity are
abstracted to exact arithmetic (none of the verified properties depend on
rounding).  Python strings are modelled by Lean strings; whitespace handling
is restricted to the ASCII whitespace recognised by Char.isWhitespace.
-/

/-- Model of a Python float value: a finite rational or one of the special
values produced by parsing "inf", "-inf" or "nan". -/
inductive PyFloat where
  | finite (q : ℚ)
  | inf
  | negInf
  | nan
deriving DecidableEq, Repr

/-- Drop leading characters accepted by Python as whitespace. -/
def skipWs (l : List Char) : List Char := l.dropWhile Char.isWhitespace

/-- Python str.lower() on a character list (ASCII case folding). -/
def toLowerL (l : List Char) : List Char := l.map Char.toLower

/-- Python str.strip() on a character list: drop whitespace at both ends. -/
def trimL (l : List Char) : List Char :=
  ((l.dropWhile Char.isWhitespace).reverse.dropWhile Char.isWhitespace).reverse

/-- Consume an optional sign character, returning true for a minus sign. -/
def parseSign : List Char → Bool × List Char
  | '+' :: cs => (false, cs)
  | '-' :: cs => (true, cs)
  | cs => (false, cs)

/-- Greedily consume further digits of a digit run, allowing single
underscores between digits (CPython digit-group rule). -/
def digitRunAux : List Char → List Char × List Char
  | '_' :: c :: cs =>
    if c.isDigit then
      let (ds, r) := digitRunAux cs
      (c :: ds, r)
    else ([], '_' :: c :: cs)
  | c :: cs =>
    if c.isDigit then
      let (ds, r) := digitRunAux cs
      (c :: ds, r)
    else ([], c :: cs)
  | [] => ([], [])

/-- Consume a nonempty digit run `digit (underscore? digit)*`; fails when the
input does not start with a digit. -/
def digitRun (l : List Char) : Option (List Char × List Char) :=
  match l with
  | c :: cs =>
    if c.isDigit then
      let (ds, r) := digitRunAux cs
      some (c :: ds, r)
    else none
  | [] => none

/-- Numeric value of a digit list. -/
def natVal (ds : List Char) : Nat :=
  ds.foldl (fun n c => n * 10 + (c.toNat - 48)) 0

/-- Case-insensitive match of a (lowercase) pattern against the head of the
input, returning the remainder on success. -/
def matchCIAux : List Char → List Char → Option (List Char)
  | [], l => some l
  | p :: ps, c :: cs => if c.toLower = p then matchCIAux ps cs else none
  | _ :: _, [] => none

/-- Assemble the rational value of a parsed decimal literal
(sign? intpart . fracpart e sign? exppart), built as one exact fraction. -/
def decimalVal (neg : Bool) (ip fp : List Char) (eneg : Bool) (ed : List Char) : PyFloat :=
  let n0 : Nat := natVal ip * 10 ^ fp.length + natVal fp
  let e : Nat := natVal ed
  let num : Nat := if eneg then n0 else n0 * 10 ^ e
  let den : Nat := if eneg then 10 ^ fp.length * 10 ^ e else 10 ^ fp.length
  .finite (if neg then mkRat (-(num : Int)) den else mkRat (num : Int) den)

/-- Parse the decimal part of a Python float literal (after sign): digits,
optional fraction, optional exponent, optional trailing whitespace. -/
def parseDecimal (neg : Bool) (l : List Char) : Option PyFloat :=
  let (ip, rest, hasInt) :=
    match digitRun l with
    | some (ds, r) => (ds, r, true)
    | none => (([] : List Char), l, false)
  let (fp, rest2) :=
    match rest with
    | '.' :: r =>
      match digitRun r with
      | some (ds, r2) => (ds, r2)
      | none => (([] : List Char), r)
    | _ => (([] : List Char), rest)
  if !hasInt && fp.isEmpty then none
  else
    match rest2 with
    | c :: r =>
      if c = 'e' ∨ c = 'E' then
        let (eneg, r2) := parseSign r
        match digitRun r2 with
        | some (eds, r3) =>
          if skipWs r3 = [] then some (decimalVal neg ip fp eneg eds) else none
        | none => none
      else if skipWs (c :: r) = [] then some (decimalVal neg ip fp false []) else none
    | [] => some (decimalVal neg ip fp false [])

/-- Model of CPython float(str): optional whitespace, optional sign, then an
infinity, nan or decimal literal, then optional whitespace.  Returns none
exactly when the Python call raises ValueError. -/
def pythonFloat (s : String) : Option PyFloat :=
  let l := skipWs s.toList
  let (neg, l1) := parseSign l
  match matchCIAux ("infinity".toList) l1 with
  | some r => if skipWs r = [] then some (if neg then .negInf else .inf) else none
  | none =>
  match matchCIAux ("inf".toList) l1 with
  | some r => if skipWs r = [] then some (if neg then .negInf else .inf) else none
  | none =>
  match matchCIAux ("nan".toList) l1 with
  | some r => if skipWs r = [] then some .nan else none
  | none => parseDecimal neg l1

/-- Model of CPython int(str) with default base 10: optional whitespace,
optional sign, digit run, optional whitespace. -/
def pythonInt (s : String) : Option Int :=
  let l := skipWs s.toList
  let (neg, l1) := parseSign l
  match digitRun l1 with
  | some (ds, r) =>
    if skipWs r = [] then
      some (if neg then -(natVal ds : Int) else (natVal ds : Int))
    else none
  | none => none

/-- Python comparison float > threshold, for the policy thresholds: nan
compares false, +inf compares true. -/
def pyGtQ : PyFloat → ℚ → Bool
  | .finite q, t => decide (t < q)
  | .inf, _ => true
  | .negInf, _ => false
  | .nan, _ => false

/-- Truthiness of an optional string field, as Python `if trip.get(key):`
(absent and empty string are falsy). -/
def truthy : Option String → Bool
  | none => false
  | some s => !(s == "")

/-- The trip-request fields read by check_policy_compliance.  Each field is
Option String: none models an absent dictionary key. -/
structure Trip where
  purpose : Option String
  budget : Option String
  destination : Option String
deriving DecidableEq, Repr

/-- Compliance status, modelling the two literal status strings of
check_policy_compliance. -/
inductive Status where
  | approved
  | needsReview
deriving DecidableEq, Repr

/-- The violation and note messages emitted by check_policy_compliance, one
constructor per distinct source string, carrying the interpolated data. -/
inductive Msg where
  | mustHaveJustification
  | businessPurpose (p : String)
  | budgetExceeds2000 (b : PyFloat)
  | budgetApproval1500 (b : PyFloat)
  | budgetWithinPolicy (b : PyFloat)
  | couldNotVerifyBudget
  | flightPolicyNote
  | flightPolicyDetailNote
  | hotelPolicyNote (limit : Nat) (expensive : Bool)
  | hotelPolicyDetailNote
  | carPolicyNote
  | carPolicyDetailNote
  | preferredAirlinesNote
  | preferredHotelsNote
  | preferredCarsNote
deriving DecidableEq, Repr

/-- Result record of check_policy_compliance. -/
structure ComplianceResult where
  status : Status
  violations : List Msg
  notes : List Msg
deriving DecidableEq, Repr

/-- The fixed list of expensive cities from check_policy_compliance. -/
def expensive_cities : List String :=
  ["new york", "nyc", "san francisco", "sfo", "los angeles",
   "la", "boston", "washington", "dc", "seattle", "chicago"]

/-- Python `float(trip.get("budget", 0))`: an absent key parses as 0, a
present string goes through float parsing. -/
def pyBudget (t : Trip) : Option PyFloat :=
  match t.budget with
  | none => some (PyFloat.finite 0)
  | some s => pythonFloat s

/-- Executable contiguous-substring test on character lists, modelling the
Python `city in destination` membership test on strings. -/
def infixCheck (pat : List Char) : List Char → Bool
  | [] => pat.isEmpty
  | c :: cs => pat.isPrefixOf (c :: cs) || infixCheck pat cs

/-- Whether the lowercased destination contains one of the expensive-city
substrings. -/
def isExpensiveCity (t : Trip) : Bool :=
  expensive_cities.any (fun c => infixCheck c.toList (toLowerL (t.destination.getD ("")).toList))

/-- Rule 1 violation side: business purpose required. -/
def purposeViolations (trip : Trip) : List Msg :=
  if truthy trip.purpose then [] else [Msg.mustHaveJustification]

/-- Rule 1 note side: confirmation of a truthy purpose. -/
def purposeNotes (trip : Trip) : List Msg :=
  if truthy trip.purpose then [Msg.businessPurpose (trip.purpose.getD (""))] else []

/-- Rule 2 violation side: budget over the 2000 limit.  The try block wraps
only the float conversion and the threshold branches; none of the appends
can raise, so the except branch fires exactly on parse failure. -/
def budgetViolations (bv : Option PyFloat) : List Msg :=
  match bv with
  | some b => if pyGtQ b 2000 then [Msg.budgetExceeds2000 b] else []
  | none => []

/-- Rule 2 note side: the elif ladder on the parsed budget, or the except
note on parse failure. -/
def budgetNotes (bv : Option PyFloat) : List Msg :=
  match bv with
  | some b =>
    if pyGtQ b 2000 then []
    else if pyGtQ b 1500 then [Msg.budgetApproval1500 b]
    else [Msg.budgetWithinPolicy b]
  | none => [Msg.couldNotVerifyBudget]

/-- Rules 3-6: the always-emitted informational notes, with the hotel note
carrying the computed nightly limit. -/
def fixedNotes (is_expensive_city : Bool) : List Msg :=
  [Msg.flightPolicyNote, Msg.flightPolicyDetailNote,
   Msg.hotelPolicyNote (if is_expensive_city then 250 else 200) is_expensive_city,
   Msg.hotelPolicyDetailNote,
   Msg.carPolicyNote, Msg.carPolicyDetailNote,
   Msg.preferredAirlinesNote, Msg.preferredHotelsNote, Msg.preferredCarsNote]

/-- Embedding of check_policy_compliance (src/tools/policy_rag.py, lines
85-153).  The policy_store argument of the Python function is unused by the
rule logic and is omitted; violations and notes list the messages in the
order the Python function appends them. -/
def check_policy_compliance (trip : Trip) : ComplianceResult :=
  let violations := purposeViolations trip ++ budgetViolations (pyBudget trip)
  let notes :=
    purposeNotes trip ++ budgetNotes (pyBudget trip) ++ fixedNotes (isExpensiveCity trip)
  { status := if violations = [] then Status.approved else Status.needsReview,
    violations := violations,
    notes := notes }

/-- One historical trip record (src/tools/travel_history.py).  Every field is
Option String: none models an absent key, matching csv.DictReader output
where short rows yield None values. -/
structure TravelRecord where
  origin : Option String
  destination : Option String
  airline : Option String
  hotel : Option String
  flightClass : Option String
  rentalCar : Option String
  tripDate : Option String
  totalCost : Option String
deriving DecidableEq, Repr

/-- Python str.split() with no argument: split on whitespace runs, dropping
empty pieces. -/
def pySplitWs (s : String) : List String :=
  ((s.toList.splitOnP Char.isWhitespace).filter (fun t => !(t.isEmpty))).map String.mk

/-- Airline values tallied by analyze_preferences: one entry per record whose
Airline field is truthy. -/
def airlinesOf (h : List TravelRecord) : List String :=
  h.filterMap (fun t => t.airline.bind (fun s => if s = "" then none else some s))

/-- Hotel field values tallied by analyze_preferences (truthy Hotel fields,
before brand extraction). -/
def hotelFields (h : List TravelRecord) : List String :=
  h.filterMap (fun t => t.hotel.bind (fun s => if s = "" then none else some s))

/-- Brand extraction trip.hotel.split()[0]; none models the IndexError raised
when a truthy Hotel value contains no non-whitespace token. -/
def hotelBrandsOf (h : List TravelRecord) : Option (List String) :=
  (hotelFields h).mapM (fun s => (pySplitWs s).head?)

/-- Rental-car values tallied by analyze_preferences: truthy Rental Car
fields whose lowercasing is not the string none. -/
def rentalCarsOf (h : List TravelRecord) : List String :=
  h.filterMap (fun t => t.rentalCar.bind (fun s =>
    if s = "" then none
    else if toLowerL s.toList = ("none").toList then none
    else some s))

/-- Flight-class values tallied by analyze_preferences. -/
def flightClassesOf (h : List TravelRecord) : List String :=
  h.filterMap (fun t => t.flightClass.bind (fun s => if s = "" then none else some s))

/-- Parseable Total Cost values (float(trip.get("Total Cost")) with parse
failures silently skipped). -/
def costsOf (h : List TravelRecord) : List PyFloat :=
  h.filterMap (fun t => t.totalCost.bind (fun s =>
    if s = "" then none else pythonFloat s))

/-- Python float addition on the PyFloat model (exact arithmetic for finite
values, nan and infinity propagation as in IEEE). -/
def pyAdd : PyFloat → PyFloat → PyFloat
  | .nan, _ => .nan
  | _, .nan => .nan
  | .inf, .negInf => .nan
  | .negInf, .inf => .nan
  | .inf, _ => .inf
  | _, .inf => .inf
  | .negInf, _ => .negInf
  | _, .negInf => .negInf
  | .finite a, .finite b =>
    .finite (mkRat (a.num * (b.den : Int) + b.num * (a.den : Int)) (a.den * b.den))

/-- Python sum(costs): left fold of addition starting from 0. -/
def pySum (l : List PyFloat) : PyFloat :=
  l.foldl pyAdd (.finite 0)

/-- Division of a PyFloat by a positive integer count. -/
def pyDivNat (x : PyFloat) (n : Nat) : PyFloat :=
  match x with
  | .finite q => .finite (mkRat q.num (q.den * n))
  | .inf => .inf
  | .negInf => .negInf
  | .nan => .nan

/-- Distinct values of a list in first-encounter order: the key order of a
Python Counter (an insertion-ordered dict). -/
def firstOccurrences : List String → List String
  | [] => []
  | x :: xs => x :: (firstOccurrences xs).filter (fun y => !(y == x))

/-- Counter(xs) as an association list in first-encounter key order. -/
def countsOf (xs : List String) : List (String × Nat) :=
  (firstOccurrences xs).map (fun k => (k, xs.count k))

/-- Descending-count comparison used by Counter.most_common: a stable sort
under this relation matches the CPython heapq.nlargest tie behaviour
(ties broken by earlier position). -/
def descByCount (a b : String × Nat) : Prop := b.2 ≤ a.2

instance : DecidableRel descByCount := fun a b => Nat.decLe b.2 a.2

instance : IsTotal (String × Nat) descByCount := ⟨fun a b => Nat.le_total b.2 a.2⟩

instance : IsTrans (String × Nat) descByCount :=
  ⟨fun _ _ _ h1 h2 => Nat.le_trans h2 h1⟩

/-- Counter(xs).most_common(n): counts sorted by descending frequency, ties
in first-encounter order, truncated to n entries. -/
def most_common (n : Nat) (xs : List String) : List (String × Nat) :=
  (List.insertionSort descByCount (countsOf xs)).take n

/-- The preference profile computed by analyze_preferences.  total_trips is
none on the empty-history early return, whose dictionary lacks that key. -/
structure Preferences where
  preferred_airlines : List (String × Nat)
  preferred_hotels : List (String × Nat)
  preferred_rental_cars : List (String × Nat)
  typical_flight_class : String
  average_trip_cost : PyFloat
  total_trips : Option Nat
deriving DecidableEq, Repr

/-- Embedding of analyze_preferences (src/tools/travel_history.py, lines
60-114).  The result is none exactly when the Python function raises
(IndexError from trip.Hotel.split()[0] on a truthy whitespace-only Hotel). -/
def analyze_preferences (travel_history : List TravelRecord) : Option Preferences :=
  if travel_history = [] then
    some { preferred_airlines := []
           preferred_hotels := []
           preferred_rental_cars := []
           typical_flight_class := "Economy"
           average_trip_cost := .finite 0
           total_trips := none }
  else
    match hotelBrandsOf travel_history with
    | none => none
    | some hotels =>
      let airlines := airlinesOf travel_history
      let rental_cars := rentalCarsOf travel_history
      let flight_classes := flightClassesOf travel_history
      let costs := costsOf travel_history
      some { preferred_airlines := most_common 3 airlines
             preferred_hotels := most_common 3 hotels
             preferred_rental_cars := most_common 3 rental_cars
             typical_flight_class :=
               match most_common 1 flight_classes with
               | [] => "Economy"
               | c :: _ => c.1
             average_trip_cost :=
               if costs = [] then .finite 0 else pyDivNat (pySum costs) costs.length
             total_trips := some travel_history.length }

/-- Flight candidate as generated by search_flights (src/tools/web_search.py).
stops and duration are Option because flight_priority reads them with
f.get(key, default); the other fields are always present. -/
structure Flight where
  airline : String
  flight : String
  depart_time : String
  arrive_time : String
  price : Int
  cabin_class : String
  stops : Option Int
  duration : Option String
deriving DecidableEq, Repr

/-- Hotel candidate as generated by search_hotels. -/
structure Hotel where
  name : String
  brand : String
  stars : Nat
  nightly_rate : Int
  total_price : Int
  nights : Nat
  location : String
deriving DecidableEq, Repr

/-- Rental-car candidate as generated by search_rental_cars. -/
structure Car where
  company : String
  vehicle_class : String
  model : String
  daily_rate : Int
  total_cost : Int
  days : Nat
  location : String
deriving DecidableEq, Repr

/-- Embedding of the duration parse inside flight_priority
(src/crew_setup_new.py lines 116-122): hours from the text before the first
h, minutes from the text after it with all m characters removed, 180 on any
parse failure. -/
def parseDurationMinutes (duration_str : String) : Int :=
  let parts := (duration_str.toList.splitOn 'h').map String.mk
  match pythonInt (parts.headD ("")) with
  | none => 180
  | some hours =>
    if duration_str.toList.contains 'm' then
      match parts[1]? with
      | none => 180
      | some p =>
        match pythonInt (String.mk (trimL (p.toList.filter (fun c => !(c == 'm'))))) with
        | none => 180
        | some mins => hours * 60 + mins
    else hours * 60

/-- flight_priority (src/crew_setup_new.py lines 111-125): the sort key
(is_direct, is_preferred, total_minutes, price). -/
def flight_priority (preferred_airlines : List String) (f : Flight) : Nat × Nat × Int × Int :=
  let is_preferred : Nat := if preferred_airlines.contains f.airline then 0 else 1
  let is_direct : Nat := if f.stops.getD 1 = 0 then 0 else 1
  let total_minutes : Int := parseDurationMinutes (f.duration.getD ("3h 0m"))
  (is_direct, is_preferred, total_minutes, f.price)

/-- hotel_priority (src/crew_setup_new.py lines 162-164). -/
def hotel_priority (preferred_hotels : List String) (h : Hotel) : Nat × Int :=
  (if preferred_hotels.contains h.brand then 0 else 1, h.total_price)

/-- car_priority (src/crew_setup_new.py lines 200-202). -/
def car_priority (preferred_cars : List String) (c : Car) : Nat × Int :=
  (if preferred_cars.contains c.company then 0 else 1, c.total_cost)

/-- Lexicographic non-strict comparison on a pair, as Python tuple order. -/
def lexLe2 (p q : Nat × Int) : Bool :=
  decide (p.1 < q.1) || (decide (p.1 = q.1) && decide (p.2 ≤ q.2))

/-- Lexicographic non-strict comparison on a 4-tuple, as Python tuple order. -/
def lexLe4 (p q : Nat × Nat × Int × Int) : Bool :=
  decide (p.1 < q.1) ||
  (decide (p.1 = q.1) &&
    (decide (p.2.1 < q.2.1) ||
      (decide (p.2.1 = q.2.1) &&
        (decide (p.2.2.1 < q.2.2.1) ||
          (decide (p.2.2.1 = q.2.2.1) && decide (p.2.2.2 ≤ q.2.2.2))))))

/-- The flight ordering used by sorted(flights, key=flight_priority). -/
def flightRel (p : List String) (a b : Flight) : Prop :=
  lexLe4 (flight_priority p a) (flight_priority p b) = true

/-- The hotel ordering used by sorted(hotels, key=hotel_priority). -/
def hotelRel (p : List String) (a b : Hotel) : Prop :=
  lexLe2 (hotel_priority p a) (hotel_priority p b) = true

/-- The car ordering used by sorted(cars, key=car_priority). -/
def carRel (p : List String) (a b : Car) : Prop :=
  lexLe2 (car_priority p a) (car_priority p b) = true

instance (p : List String) : DecidableRel (flightRel p) :=
  fun a b => inferInstanceAs (Decidable (lexLe4 (flight_priority p a) (flight_priority p b) = true))

instance (p : List String) : DecidableRel (hotelRel p) :=
  fun a b => inferInstanceAs (Decidable (lexLe2 (hotel_priority p a) (hotel_priority p b) = true))

instance (p : List String) : DecidableRel (carRel p) :=
  fun a b => inferInstanceAs (Decidable (lexLe2 (car_priority p a) (car_priority p b) = true))

theorem lexLe4_total (x y : Nat × Nat × Int × Int) : lexLe4 x y = true ∨ lexLe4 y x = true := by
  obtain ⟨a1, b1, c1, d1⟩ := x
  obtain ⟨a2, b2, c2, d2⟩ := y
  simp only [lexLe4, Bool.or_eq_true, Bool.and_eq_true, decide_eq_true_eq]
  omega

theorem lexLe4_trans (x y z : Nat × Nat × Int × Int)
    (h1 : lexLe4 x y = true) (h2 : lexLe4 y z = true) : lexLe4 x z = true := by
  obtain ⟨a1, b1, c1, d1⟩ := x
  obtain ⟨a2, b2, c2, d2⟩ := y
  obtain ⟨a3, b3, c3, d3⟩ := z
  simp only [lexLe4, Bool.or_eq_true, Bool.and_eq_true, decide_eq_true_eq] at h1 h2 ⊢
  omega

theorem lexLe4_refl (x : Nat × Nat × Int × Int) : lexLe4 x x = true := by
  simp [lexLe4]

theorem lexLe2_total (x y : Nat × Int) : lexLe2 x y = true ∨ lexLe2 y x = true := by
  obtain ⟨a1, b1⟩ := x
  obtain ⟨a2, b2⟩ := y
  simp only [lexLe2, Bool.or_eq_true, Bool.and_eq_true, decide_eq_true_eq]
  omega

theorem lexLe2_trans (x y z : Nat × Int)
    (h1 : lexLe2 x y = true) (h2 : lexLe2 y z = true) : lexLe2 x z = true := by
  obtain ⟨a1, b1⟩ := x
  obtain ⟨a2, b2⟩ := y
  obtain ⟨a3, b3⟩ := z
  simp only [lexLe2, Bool.or_eq_true, Bool.and_eq_true, decide_eq_true_eq] at h1 h2 ⊢
  omega

theorem lexLe2_refl (x : Nat × Int) : lexLe2 x x = true := by
  simp [lexLe2]

instance (p : List String) : IsTotal Flight (flightRel p) :=
  ⟨fun _ _ => lexLe4_total _ _⟩

instance (p : List String) : IsTrans Flight (flightRel p) :=
  ⟨fun _ _ _ h1 h2 => lexLe4_trans _ _ _ h1 h2⟩

instance (p : List String) : IsTotal Hotel (hotelRel p) :=
  ⟨fun _ _ => lexLe2_total _ _⟩

instance (p : List String) : IsTrans Hotel (hotelRel p) :=
  ⟨fun _ _ _ h1 h2 => lexLe2_trans _ _ _ h1 h2⟩

instance (p : List String) : IsTotal Car (carRel p) :=
  ⟨fun _ _ => lexLe2_total _ _⟩

instance (p : List String) : IsTrans Car (carRel p) :=
  ⟨fun _ _ _ h1 h2 => lexLe2_trans _ _ _ h1 h2⟩

/-- sorted(flights, key=flight_priority): Python sorted is the stable sort
under the key order, modelled by stable insertion sort. -/
def rankFlights (preferred_airlines : List String) (flights : List Flight) : List Flight :=
  List.insertionSort (flightRel preferred_airlines) flights

/-- sorted(hotels, key=hotel_priority). -/
def rankHotels (preferred_hotels : List String) (hotels : List Hotel) : List Hotel :=
  List.insertionSort (hotelRel preferred_hotels) hotels

/-- sorted(cars, key=car_priority). -/
def rankCars (preferred_cars : List String) (cars : List Car) : List Car :=
  List.insertionSort (carRel preferred_cars) cars

/-- One recommended package from the loop in run_simple_mode
(src/crew_setup_new.py lines 273-322). -/
structure Package where
  flight : Flight
  hotel : Hotel
  car : Car
  total : Int
  matched : List String
deriving DecidableEq, Repr

/-- Build the rank-i package: total cost is the sum of the three prices and
the preference-match tags are membership tests of the chosen providers in
the top-3 preferred-name lists. -/
def mkPackage (pa ph pc : List String) (f : Flight) (h : Hotel) (c : Car) : Package :=
  { flight := f
    hotel := h
    car := c
    total := f.price + h.total_price + c.total_cost
    matched :=
      (if pa.contains f.airline then [("preferred airline")] else []) ++
      (if ph.contains h.brand then [("preferred hotel")] else []) ++
      (if pc.contains c.company then [("preferred car rental")] else []) }

/-- The package loop `for i in range(min(3, len(flights_sorted),
len(hotels_sorted), len(cars_sorted)))` pairing the i-th entries of the
three ranked lists. -/
def assemblePackages (pa ph pc : List String)
    (fs : List Flight) (hs : List Hotel) (cs : List Car) : List Package :=
  ((fs.zip (hs.zip cs)).take 3).map (fun x => mkPackage pa ph pc x.1 x.2.1 x.2.2)

/-- The empty-history profile returned by the early-return branch of
analyze_preferences (its dictionary lacks the total_trips key). -/
def emptyPreferences : Preferences :=
  { preferred_airlines := []
    preferred_hotels := []
    preferred_rental_cars := []
    typical_flight_class := "Economy"
    average_trip_cost := .finite 0
    total_trips := none }

/-- Concrete trip with an empty purpose (spec test vector). -/
def tripNoPurpose : Trip :=
  { purpose := some ("")
    budget := some ("500")
    destination := none }

/-- Concrete trip with a budget above the 2000 limit (spec test vector). -/
def tripBigBudget : Trip :=
  { purpose := some ("Client visit")
    budget := some ("2500")
    destination := some ("New York") }

/-- Concrete compliant trip to New York (spec test vector). -/
def tripOkNY : Trip :=
  { purpose := some ("Client visit")
    budget := some ("1000")
    destination := some ("New York") }

/-- Concrete trip to a standard city in the 1500-2000 budget band. -/
def tripDenver : Trip :=
  { purpose := some ("Client visit")
    budget := some ("1800")
    destination := some ("Denver") }

/-- Concrete trip with an unparsable budget string. -/
def tripBadBudget : Trip :=
  { purpose := some ("x")
    budget := some ("abc")
    destination := none }

/-- A direct flight on a non-preferred airline, expensive and from an
unpreferred carrier. -/
def directFlight : Flight :=
  { airline := "Spirit"
    flight := "NK100"
    depart_time := "2025-01-10 08:00"
    arrive_time := "2025-01-10 10:05"
    price := 999
    cabin_class := "Economy"
    stops := some 0
    duration := some ("2h 5m") }

/-- A cheap connecting flight on a preferred airline. -/
def connFlight : Flight :=
  { airline := "Delta"
    flight := "DL1"
    depart_time := "2025-01-10 06:00"
    arrive_time := "2025-01-10 10:30"
    price := 100
    cabin_class := "Economy"
    stops := some 1
    duration := some ("4h 30m") }

/-- Two flights with identical sort keys, differing only in flight number. -/
def tiedFlightA : Flight :=
  { airline := "United"
    flight := "UA10"
    depart_time := "2025-01-10 08:00"
    arrive_time := "2025-01-10 11:00"
    price := 400
    cabin_class := "Economy"
    stops := some 0
    duration := some ("3h 0m") }

/-- Second flight of the tied pair. -/
def tiedFlightB : Flight :=
  { airline := "United"
    flight := "UA99"
    depart_time := "2025-01-10 08:00"
    arrive_time := "2025-01-10 11:00"
    price := 400
    cabin_class := "Economy"
    stops := some 0
    duration := some ("3h 0m") }

/-- Concrete hotel candidate. -/
def hotelA : Hotel :=
  { name := "Courtyard by Marriott Denver"
    brand := "Marriott"
    stars := 3
    nightly_rate := 170
    total_price := 510
    nights := 3
    location := "Denver Downtown" }

/-- Second concrete hotel candidate. -/
def hotelB : Hotel :=
  { name := "Hilton Denver"
    brand := "Hilton"
    stars := 4
    nightly_rate := 240
    total_price := 720
    nights := 3
    location := "Denver Downtown" }

/-- Third concrete hotel candidate. -/
def hotelC : Hotel :=
  { name := "Hyatt Regency Denver"
    brand := "Hyatt"
    stars := 4
    nightly_rate := 300
    total_price := 900
    nights := 3
    location := "Denver Downtown" }

/-- Concrete car candidate. -/
def carA : Car :=
  { company := "Hertz"
    vehicle_class := "Compact"
    model := "Toyota Corolla or similar"
    daily_rate := 72
    total_cost := 216
    days := 3
    location := "Denver Airport" }

/-- Second concrete car candidate. -/
def carB : Car :=
  { company := "Enterprise"
    vehicle_class := "Mid-size"
    model := "Toyota Camry or similar"
    daily_rate := 65
    total_cost := 195
    days := 3
    location := "Denver Airport" }

/-- Third concrete car candidate. -/
def carC : Car :=
  { company := "National"
    vehicle_class := "Compact"
    model := "Honda Civic or similar"
    daily_rate := 68
    total_cost := 204
    days := 3
    location := "Denver Airport" }

/-- Concrete history record (the built-in fallback record of
load_travel_history). -/
def histRecord1 : TravelRecord :=
  { origin := some ("Chicago")
    destination := some ("New York")
    airline := some ("Delta")
    hotel := some ("Marriott Marquis")
    flightClass := some ("Economy")
    rentalCar := some ("Enterprise")
    tripDate := some ("2024-03-15")
    totalCost := some ("1250") }

/-- Second concrete history record. -/
def histRecord2 : TravelRecord :=
  { origin := none
    destination := none
    airline := some ("United")
    hotel := some ("Hilton Garden")
    flightClass := some ("Economy")
    rentalCar := none
    tripDate := none
    totalCost := some ("900") }

/-- Record whose truthy whitespace-only Hotel field makes
trip.Hotel.split()[0] raise IndexError in the Python source. -/
def crashRecord : TravelRecord :=
  { origin := none
    destination := none
    airline := some ("Delta")
    hotel := some (" ")
    flightClass := some ("Economy")
    rentalCar := some ("Hertz")
    tripDate := none
    totalCost := some ("1000") }

/-- Record whose Rental Car field is the string None (case-insensitively
excluded from the car tally). -/
def noneCarRecord : TravelRecord :=
  { origin := none
    destination := none
    airline := some ("Delta")
    hotel := some ("Marriott Marquis")
    flightClass := some ("Economy")
    rentalCar := some ("None")
    tripDate := none
    totalCost := some ("800") }

/-- Two-record concrete history used by the preference-extraction witness. -/
def histW : List TravelRecord := [histRecord1, histRecord2]

/-- The profile analyze_preferences computes on histW. -/
def prefsW : Preferences :=
  { preferred_airlines := [("Delta", 1), ("United", 1)]
    preferred_hotels := [("Marriott", 1), ("Hilton", 1)]
    preferred_rental_cars := [("Enterprise", 1)]
    typical_flight_class := "Economy"
    average_trip_cost := .finite 1075
    total_trips := some 2 }

/-- The profile analyze_preferences computes on the one-record history. -/
def prefsOne : Preferences :=
  { preferred_airlines := [("Delta", 1)]
    preferred_hotels := [("Marriott", 1)]
    preferred_rental_cars := [("Enterprise", 1)]
    typical_flight_class := "Economy"
    average_trip_cost := .finite 1250
    total_trips := some 1 }

theorem check_violations_def (t : Trip) :
    (check_policy_compliance t).violations =
      purposeViolations t ++ budgetViolations (pyBudget t) := rfl

theorem check_notes_def (t : Trip) :
    (check_policy_compliance t).notes =
      purposeNotes t ++ budgetNotes (pyBudget t) ++ fixedNotes (isExpensiveCity t) := rfl

theorem check_status_def (t : Trip) :
    (check_policy_compliance t).status =
      (if (check_policy_compliance t).violations = [] then Status.approved
       else Status.needsReview) := rfl

/-- C1: for every trip request, the status is needs_review exactly when at
least one violation was recorded and approved exactly when none was; it is
derived solely from emptiness of the violations list and takes no third
value. -/
theorem check_policy_compliance_status (t : Trip) :
    ((check_policy_compliance t).status = Status.needsReview ↔
      (check_policy_compliance t).violations ≠ []) ∧
    ((check_policy_compliance t).status = Status.approved ↔
      (check_policy_compliance t).violations = []) ∧
    ((check_policy_compliance t).status = Status.approved ∨
      (check_policy_compliance t).status = Status.needsReview) := by
  rw [check_status_def]
  by_cases h : (check_policy_compliance t).violations = [] <;> simp [h]

/-- C1 witness: on the empty-purpose trip the violations list is nonempty
and the status is therefore needs_review. -/
theorem check_policy_compliance_status_witness :
    (check_policy_compliance tripNoPurpose).status = Status.needsReview :=
  (check_policy_compliance_status tripNoPurpose).1.mpr (by decide)

theorem budget_not_in_purposeViolations (t : Trip) (b : PyFloat) :
    Msg.budgetExceeds2000 b ∉ purposeViolations t := by
  unfold purposeViolations
  by_cases hp : truthy t.purpose <;> simp [hp]

/-- C2: the budget rule records a violation exactly above 2000, an
approval-required note on (1500, 2000], a compliance note at or below 1500,
and a could-not-verify note (never a violation) on parse failure. -/
theorem check_policy_compliance_budget (t : Trip) :
    (∀ q : ℚ, pyBudget t = some (PyFloat.finite q) →
      (q > 2000 →
        Msg.budgetExceeds2000 (PyFloat.finite q) ∈ (check_policy_compliance t).violations) ∧
      (1500 < q → q ≤ 2000 →
        Msg.budgetApproval1500 (PyFloat.finite q) ∈ (check_policy_compliance t).notes ∧
        ∀ b, Msg.budgetExceeds2000 b ∉ (check_policy_compliance t).violations) ∧
      (q ≤ 1500 →
        Msg.budgetWithinPolicy (PyFloat.finite q) ∈ (check_policy_compliance t).notes ∧
        ∀ b, Msg.budgetExceeds2000 b ∉ (check_policy_compliance t).violations)) ∧
    (pyBudget t = none →
      Msg.couldNotVerifyBudget ∈ (check_policy_compliance t).notes ∧
      ∀ b, Msg.budgetExceeds2000 b ∉ (check_policy_compliance t).violations) := by
  rw [check_violations_def, check_notes_def]
  constructor
  · intro q hq
    rw [hq]
    refine ⟨fun h2 => ?_, fun h15 h2 => ?_, fun h15 => ?_⟩
    · simp [budgetViolations, pyGtQ, h2]
    · have h20 : ¬ ((2000 : ℚ) < q) := not_lt.mpr h2
      refine ⟨by simp [budgetNotes, pyGtQ, h20, h15], fun b => ?_⟩
      rw [List.mem_append]
      rintro (hmem | hmem)
      · exact budget_not_in_purposeViolations t b hmem
      · simp [budgetViolations, pyGtQ, h20] at hmem
    · have h20 : ¬ ((2000 : ℚ) < q) := not_lt.mpr (h15.trans (by norm_num))
      have h15' : ¬ ((1500 : ℚ) < q) := not_lt.mpr h15
      refine ⟨by simp [budgetNotes, pyGtQ, h20, h15'], fun b => ?_⟩
      rw [List.mem_append]
      rintro (hmem | hmem)
      · exact budget_not_in_purposeViolations t b hmem
      · simp [budgetViolations, pyGtQ, h20] at hmem
  · intro hq
    rw [hq]
    refine ⟨by simp [budgetNotes], fun b => ?_⟩
    rw [List.mem_append]
    rintro (hmem | hmem)
    · exact budget_not_in_purposeViolations t b hmem
    · simp [budgetViolations] at hmem

/-- C2 witness: the three budget regimes exercised on the concrete trips
2500 (violation), 1800 (approval note), unparsable (verify note). -/
theorem check_policy_compliance_budget_witness :
    pyBudget tripBigBudget = some (PyFloat.finite 2500) ∧
    Msg.budgetExceeds2000 (PyFloat.finite 2500) ∈ (check_policy_compliance tripBigBudget).violations ∧
    Msg.budgetApproval1500 (PyFloat.finite 1800) ∈ (check_policy_compliance tripDenver).notes ∧
    Msg.couldNotVerifyBudget ∈ (check_policy_compliance tripBadBudget).notes :=
  ⟨by decide,
   ((check_policy_compliance_budget tripBigBudget).1 2500 (by decide)).1 (by norm_num),
   (((check_policy_compliance_budget tripDenver).1 1800 (by decide)).2.1
     (by norm_num) (by norm_num)).1,
   ((check_policy_compliance_budget tripBadBudget).2 (by decide)).1⟩

theorem infixCheck_iff (pat : List Char) (l : List Char) :
    infixCheck pat l = true ↔ pat <:+: l := by
  induction l with
  | nil => simp [infixCheck, List.isEmpty_iff]
  | cons c cs ih => simp [infixCheck, List.infix_cons_iff, ih]

theorem hotel_note_not_in_purposeNotes (t : Trip) (n : Nat) (e : Bool) :
    Msg.hotelPolicyNote n e ∉ purposeNotes t := by
  unfold purposeNotes
  by_cases hp : truthy t.purpose <;> simp [hp]

theorem hotel_note_not_in_budgetNotes (bv : Option PyFloat) (n : Nat) (e : Bool) :
    Msg.hotelPolicyNote n e ∉ budgetNotes bv := by
  unfold budgetNotes
  rcases bv with _ | b
  · simp
  · by_cases h2 : pyGtQ b 2000 <;> by_cases h15 : pyGtQ b 1500 <;> simp [h2, h15]

/-- C5: the hotel note cites 250 per night exactly when the lowercased
destination contains one of the fixed city substrings and 200 otherwise,
and the hotel rule only ever contributes notes, never violations. -/
theorem check_policy_compliance_hotel_note (t : Trip) :
    (Msg.hotelPolicyNote 250 true ∈ (check_policy_compliance t).notes ↔
      isExpensiveCity t = true) ∧
    (Msg.hotelPolicyNote 200 false ∈ (check_policy_compliance t).notes ↔
      isExpensiveCity t = false) ∧
    (isExpensiveCity t = true ↔
      ∃ c ∈ expensive_cities, c.toList <:+: toLowerL (t.destination.getD ("")).toList) ∧
    (∀ v ∈ (check_policy_compliance t).violations,
      v = Msg.mustHaveJustification ∨ ∃ b, v = Msg.budgetExceeds2000 b) := by
  rw [check_notes_def, check_violations_def]
  refine ⟨?_, ?_, ?_, ?_⟩
  · constructor
    · intro hmem
      rw [List.mem_append, List.mem_append] at hmem
      rcases hmem with (hmem | hmem) | hmem
      · exact absurd hmem (hotel_note_not_in_purposeNotes t 250 true)
      · exact absurd hmem (hotel_note_not_in_budgetNotes _ 250 true)
      · by_cases he : isExpensiveCity t
        · exact he
        · simp [fixedNotes, he] at hmem
    · intro he
      rw [List.mem_append]
      right
      simp [fixedNotes, he]
  · constructor
    · intro hmem
      rw [List.mem_append, List.mem_append] at hmem
      rcases hmem with (hmem | hmem) | hmem
      · exact absurd hmem (hotel_note_not_in_purposeNotes t 200 false)
      · exact absurd hmem (hotel_note_not_in_budgetNotes _ 200 false)
      · by_cases he : isExpensiveCity t
        · simp [fixedNotes, he] at hmem
        · simp [he]
    · intro he
      rw [List.mem_append]
      right
      simp [fixedNotes, he]
  · unfold isExpensiveCity
    simp only [List.any_eq_true, infixCheck_iff]
  · intro v hv
    rw [List.mem_append] at hv
    rcases hv with hv | hv
    · unfold purposeViolations at hv
      by_cases hp : truthy t.purpose <;> simp [hp] at hv
      · exact Or.inl hv
    · unfold budgetViolations at hv
      rcases hb : pyBudget t with _ | b
      · rw [hb] at hv; simp at hv
      · rw [hb] at hv
        by_cases h2 : pyGtQ b 2000 <;> simp [h2] at hv
        · exact Or.inr ⟨b, hv⟩

/-- C5 witness: New York gets the 250 note, Denver the 200 note. -/
theorem check_policy_compliance_hotel_note_witness :
    Msg.hotelPolicyNote 250 true ∈ (check_policy_compliance tripOkNY).notes ∧
    Msg.hotelPolicyNote 200 false ∈ (check_policy_compliance tripDenver).notes :=
  ⟨(check_policy_compliance_hotel_note tripOkNY).1.mpr (by decide),
   (check_policy_compliance_hotel_note tripDenver).2.1.mpr (by decide)⟩

/-- C6: the business-justification violation is recorded exactly when the
purpose is empty or absent (forcing needs_review), and a nonempty purpose
yields a confirming note instead. -/
theorem check_policy_compliance_purpose (t : Trip) :
    (Msg.mustHaveJustification ∈ (check_policy_compliance t).violations ↔
      truthy t.purpose = false) ∧
    (truthy t.purpose = false ↔ (t.purpose = none ∨ t.purpose = some (""))) ∧
    (truthy t.purpose = false → (check_policy_compliance t).status = Status.needsReview) ∧
    (∀ s, t.purpose = some s → s ≠ "" →
      Msg.businessPurpose s ∈ (check_policy_compliance t).notes ∧
      Msg.mustHaveJustification ∉ (check_policy_compliance t).violations) := by
  have hviol : Msg.mustHaveJustification ∈ (check_policy_compliance t).violations ↔
      truthy t.purpose = false := by
    rw [check_violations_def, List.mem_append]
    constructor
    · rintro (hv | hv)
      · unfold purposeViolations at hv
        by_cases hp : truthy t.purpose <;> simp [hp] at hv ⊢
      · exfalso
        unfold budgetViolations at hv
        rcases hb : pyBudget t with _ | b
        · rw [hb] at hv; simp at hv
        · rw [hb] at hv
          by_cases h2 : pyGtQ b 2000 <;> simp [h2] at hv
    · intro hp
      left
      simp [purposeViolations, hp]
  refine ⟨hviol, ?_, ?_, ?_⟩
  · cases hp : t.purpose with
    | none => simp [truthy]
    | some s => by_cases hs : s = "" <;> simp [truthy, hs]
  · intro hp
    rw [check_status_def]
    have : (check_policy_compliance t).violations ≠ [] := by
      intro hnil
      have := hviol.mpr hp
      rw [hnil] at this
      simp at this
    simp [this]
  · intro s hs hne
    constructor
    · rw [check_notes_def, List.mem_append, List.mem_append]
      left; left
      simp [purposeNotes, truthy, hs, hne]
    · intro hmem
      have := hviol.mp hmem
      rw [hs] at this
      simp [truthy, hne] at this

/-- C6 witness: the empty-purpose trip is flagged and needs review, the
justified trip gets a confirming note. -/
theorem check_policy_compliance_purpose_witness :
    Msg.mustHaveJustification ∈ (check_policy_compliance tripNoPurpose).violations ∧
    (check_policy_compliance tripNoPurpose).status = Status.needsReview ∧
    Msg.businessPurpose ("Client visit") ∈ (check_policy_compliance tripOkNY).notes :=
  ⟨(check_policy_compliance_purpose tripNoPurpose).1.mpr (by decide),
   (check_policy_compliance_purpose tripNoPurpose).2.2.1 (by decide),
   ((check_policy_compliance_purpose tripOkNY).2.2.2 ("Client visit") rfl (by decide)).1⟩

/-- C3: rankOptions on flights sorts by the lexicographic key (direct-first,
preferred-airline, parsed duration minutes with default 180, price); hence a
direct flight from a non-preferred airline never appears after a connecting
flight from a preferred airline, regardless of price. -/
theorem rankFlights_spec (p : List String) (fs : List Flight) :
    (rankFlights p fs).Perm fs ∧
    (rankFlights p fs).Pairwise (flightRel p) ∧
    (∀ f g : Flight, f.stops.getD 1 = 0 → p.contains f.airline = false →
      g.stops.getD 1 ≠ 0 → p.contains g.airline = true →
      ¬ List.Sublist [g, f] (rankFlights p fs)) := by
  have hsorted : (rankFlights p fs).Pairwise (flightRel p) :=
    List.sorted_insertionSort (flightRel p) fs
  refine ⟨List.perm_insertionSort _ _, hsorted, ?_⟩
  intro f g hf hfp hg hgp hsub
  have hpair : ([g, f]).Pairwise (flightRel p) := hsorted.sublist hsub
  have hrel : flightRel p g f := by
    have := List.pairwise_cons.mp hpair
    exact this.1 f (List.mem_singleton.mpr rfl)
  unfold flightRel flight_priority at hrel
  simp only [hf, hg, hfp, hgp] at hrel
  simp [lexLe4] at hrel

/-- C3 witness: a cheap connecting preferred-airline flight never precedes
the expensive direct non-preferred one in the ranked order. -/
theorem rankFlights_spec_witness :
    ¬ List.Sublist [connFlight, directFlight]
      (rankFlights ["Delta"] [connFlight, directFlight]) :=
  (rankFlights_spec ["Delta"] [connFlight, directFlight]).2.2
    directFlight connFlight (by decide) (by decide) (by decide) (by decide)

/-- C7: re-ranking an already ranked list with the same profile returns it
unchanged, and ties under the sort key keep their input order, for all three
candidate kinds. -/
theorem ranking_stable_idempotent (pa ph pc : List String)
    (fs : List Flight) (hs : List Hotel) (cs : List Car) :
    rankFlights pa (rankFlights pa fs) = rankFlights pa fs ∧
    rankHotels ph (rankHotels ph hs) = rankHotels ph hs ∧
    rankCars pc (rankCars pc cs) = rankCars pc cs ∧
    (∀ a b : Flight, flight_priority pa a = flight_priority pa b →
      List.Sublist [a, b] fs → List.Sublist [a, b] (rankFlights pa fs)) ∧
    (∀ a b : Hotel, hotel_priority ph a = hotel_priority ph b →
      List.Sublist [a, b] hs → List.Sublist [a, b] (rankHotels ph hs)) ∧
    (∀ a b : Car, car_priority pc a = car_priority pc b →
      List.Sublist [a, b] cs → List.Sublist [a, b] (rankCars pc cs)) := by
  refine ⟨?_, ?_, ?_, ?_, ?_, ?_⟩
  · exact (List.sorted_insertionSort (flightRel pa) fs).insertionSort_eq
  · exact (List.sorted_insertionSort (hotelRel ph) hs).insertionSort_eq
  · exact (List.sorted_insertionSort (carRel pc) cs).insertionSort_eq
  · intro a b htie hsub
    refine List.pair_sublist_insertionSort ?_ hsub
    unfold flightRel
    rw [htie]
    exact lexLe4_refl _
  · intro a b htie hsub
    refine List.pair_sublist_insertionSort ?_ hsub
    unfold hotelRel
    rw [htie]
    exact lexLe2_refl _
  · intro a b htie hsub
    refine List.pair_sublist_insertionSort ?_ hsub
    unfold carRel
    rw [htie]
    exact lexLe2_refl _

/-- C7 witness: idempotence on a concrete flight list and preserved order of
a concrete tied pair. -/
theorem ranking_stable_idempotent_witness :
    rankFlights ["Delta"] (rankFlights ["Delta"] [connFlight, directFlight]) =
      rankFlights ["Delta"] [connFlight, directFlight] ∧
    List.Sublist [tiedFlightA, tiedFlightB]
      (rankFlights [] [tiedFlightA, tiedFlightB]) :=
  ⟨(ranking_stable_idempotent ["Delta"] [] [] [connFlight, directFlight] [] []).1,
   (ranking_stable_idempotent ([]) ([]) ([]) [tiedFlightA, tiedFlightB] [] []).2.2.2.1
     tiedFlightA tiedFlightB (by decide) (List.Sublist.refl _)⟩

/-- C4: the assembler yields exactly min(3, lengths) packages, an empty
input list yields zero packages, the i-th package pairs the i-th entries of
the three lists, its total is the sum of the three prices, and the
preference tags are membership tests on provider identity. -/
theorem assemblePackages_spec (pa ph pc : List String)
    (fs : List Flight) (hs : List Hotel) (cs : List Car) :
    (assemblePackages pa ph pc fs hs cs).length =
      min 3 (min fs.length (min hs.length cs.length)) ∧
    (fs = [] ∨ hs = [] ∨ cs = [] → assemblePackages pa ph pc fs hs cs = []) ∧
    (∀ (i : Nat) (hi : i < (assemblePackages pa ph pc fs hs cs).length),
      ∃ (hf : i < fs.length) (hh : i < hs.length) (hc : i < cs.length),
        (assemblePackages pa ph pc fs hs cs).get ⟨i, hi⟩ =
          mkPackage pa ph pc (fs.get ⟨i, hf⟩) (hs.get ⟨i, hh⟩) (cs.get ⟨i, hc⟩)) ∧
    (∀ (f : Flight) (h : Hotel) (c : Car),
      (mkPackage pa ph pc f h c).total = f.price + h.total_price + c.total_cost ∧
      (("preferred airline") ∈ (mkPackage pa ph pc f h c).matched ↔
        pa.contains f.airline = true) ∧
      (("preferred hotel") ∈ (mkPackage pa ph pc f h c).matched ↔
        ph.contains h.brand = true) ∧
      (("preferred car rental") ∈ (mkPackage pa ph pc f h c).matched ↔
        pc.contains c.company = true)) := by
  have hlen : (assemblePackages pa ph pc fs hs cs).length =
      min 3 (min fs.length (min hs.length cs.length)) := by
    simp [assemblePackages]
  refine ⟨hlen, ?_, ?_, ?_⟩
  · rintro (rfl | rfl | rfl) <;> simp [assemblePackages]
  · intro i hi
    rw [hlen] at hi
    have hf : i < fs.length := by omega
    have hh : i < hs.length := by omega
    have hc : i < cs.length := by omega
    refine ⟨hf, hh, hc, ?_⟩
    simp [assemblePackages, List.get_eq_getElem, List.getElem_take, List.getElem_zip]
  · intro f h c
    refine ⟨rfl, ?_, ?_, ?_⟩ <;>
      by_cases h1 : pa.contains f.airline <;>
      by_cases h2 : ph.contains h.brand <;>
      by_cases h3 : pc.contains c.company <;>
      simp [mkPackage, h1, h2, h3]

/-- C4 witness: two flights with three hotels and three cars give exactly
two packages, and an empty flight list gives none. -/
theorem assemblePackages_spec_witness :
    (assemblePackages [] [] [] [directFlight, connFlight]
      [hotelA, hotelB, hotelC] [carA, carB, carC]).length = 2 ∧
    assemblePackages [] [] [] [] [hotelA] [carA] = [] := by
  constructor
  · rw [(assemblePackages_spec ([]) ([]) ([]) [directFlight, connFlight]
      [hotelA, hotelB, hotelC] [carA, carB, carC]).1]
    decide
  · exact (assemblePackages_spec ([]) ([]) ([]) ([]) [hotelA] [carA]).2.1 (Or.inl rfl)

theorem pair_sublist_of_mem {α : Type} {l : List α} {a b : α}
    (ha : a ∈ l) (hb : b ∈ l) (hne : a ≠ b) :
    List.Sublist [a, b] l ∨ List.Sublist [b, a] l := by
  induction l with
  | nil => cases ha
  | cons x t ih =>
    by_cases hax : a = x
    · subst hax
      have hbt : b ∈ t := by
        rcases List.mem_cons.mp hb with h | h
        · exact absurd h.symm hne
        · exact h
      exact Or.inl (List.Sublist.cons₂ a (List.singleton_sublist.mpr hbt))
    · by_cases hbx : b = x
      · subst hbx
        have hat : a ∈ t := by
          rcases List.mem_cons.mp ha with h | h
          · exact absurd h hax
          · exact h
        exact Or.inr (List.Sublist.cons₂ b (List.singleton_sublist.mpr hat))
      · have hat : a ∈ t := by
          rcases List.mem_cons.mp ha with h | h
          · exact absurd h hax
          · exact h
        have hbt : b ∈ t := by
          rcases List.mem_cons.mp hb with h | h
          · exact absurd h hbx
          · exact h
        exact (ih hat hbt).imp (List.Sublist.cons x) (List.Sublist.cons x)

theorem eq_of_pair_sublists {α : Type} {l : List α} (hnd : l.Nodup) {a b : α}
    (h1 : List.Sublist [a, b] l) (h2 : List.Sublist [b, a] l) : a = b := by
  induction l with
  | nil => cases h1
  | cons x t ih =>
    cases h1 with
    | cons _ h1t =>
      cases h2 with
      | cons _ h2t => exact ih (List.Nodup.of_cons hnd) h1t h2t
      | cons₂ _ h2t =>
        exfalso
        have hbt : b ∈ t := h1t.subset (by simp)
        exact (List.nodup_cons.mp hnd).1 hbt
    | cons₂ _ h1t =>
      cases h2 with
      | cons _ h2t =>
        exfalso
        have hat : a ∈ t := h2t.subset (by simp)
        exact (List.nodup_cons.mp hnd).1 hat
      | cons₂ _ h2t => rfl

theorem firstOccurrences_nodup (xs : List String) : (firstOccurrences xs).Nodup := by
  induction xs with
  | nil => simp [firstOccurrences]
  | cons x t ih =>
    rw [firstOccurrences, List.nodup_cons]
    constructor
    · intro hmem
      have := List.of_mem_filter hmem
      simp at this
    · exact ih.filter _

theorem countsOf_nodup (xs : List String) : (countsOf xs).Nodup := by
  unfold countsOf
  refine List.Nodup.map ?_ (firstOccurrences_nodup xs)
  intro k1 k2 he
  exact congrArg Prod.fst he

theorem countsOf_fst (xs : List String) :
    (countsOf xs).map Prod.fst = firstOccurrences xs := by
  unfold countsOf
  rw [List.map_map]
  exact List.map_id _

theorem most_common_length (n : Nat) (xs : List String) :
    (most_common n xs).length ≤ n := by
  simp [most_common]

theorem most_common_sorted (n : Nat) (xs : List String) :
    (most_common n xs).Pairwise descByCount :=
  List.Pairwise.sublist (List.take_sublist _ _)
    (List.sorted_insertionSort descByCount (countsOf xs))

theorem most_common_tie_order (n : Nat) (xs : List String) (a b : String × Nat)
    (hsub : List.Sublist [a, b] (most_common n xs)) (htie : a.2 = b.2) :
    List.Sublist [a.1, b.1] (firstOccurrences xs) := by
  have hsorted : List.Sublist [a, b] (List.insertionSort descByCount (countsOf xs)) :=
    hsub.trans (List.take_sublist _ _)
  have hperm : (List.insertionSort descByCount (countsOf xs)).Perm (countsOf xs) :=
    List.perm_insertionSort _ _
  have hnd : (List.insertionSort descByCount (countsOf xs)).Nodup :=
    hperm.nodup_iff.mpr (countsOf_nodup xs)
  have hcounts : List.Sublist [a, b] (countsOf xs) := by
    by_cases hab : a = b
    · subst hab
      exact absurd hsorted (List.nodup_iff_sublist.mp hnd a)
    · have ha : a ∈ countsOf xs := hperm.subset (hsorted.subset (by simp))
      have hb : b ∈ countsOf xs := hperm.subset (hsorted.subset (by simp))
      rcases pair_sublist_of_mem ha hb hab with h | h
      · exact h
      · exfalso
        have hba : List.Sublist [b, a] (List.insertionSort descByCount (countsOf xs)) :=
          List.pair_sublist_insertionSort (le_of_eq htie) h
        exact hab (eq_of_pair_sublists hnd hsorted hba)
  have := hcounts.map Prod.fst
  rwa [countsOf_fst] at this

/-- C8: on any history on which extractPreferences returns, the three
preferred lists have length at most 3 and are sorted by descending count
with ties in first-encounter order; the modal flight class defaults to
Economy without flight-class data; and the empty history yields the
all-empty Economy profile with zero average cost. -/
theorem analyze_preferences_spec (h : List TravelRecord) (p : Preferences)
    (hp : analyze_preferences h = some p) :
    p.preferred_airlines.length ≤ 3 ∧
    p.preferred_hotels.length ≤ 3 ∧
    p.preferred_rental_cars.length ≤ 3 ∧
    p.preferred_airlines.Pairwise (fun a b => b.2 ≤ a.2) ∧
    p.preferred_hotels.Pairwise (fun a b => b.2 ≤ a.2) ∧
    p.preferred_rental_cars.Pairwise (fun a b => b.2 ≤ a.2) ∧
    (∀ a b, List.Sublist [a, b] p.preferred_airlines → a.2 = b.2 →
      List.Sublist [a.1, b.1] (firstOccurrences (airlinesOf h))) ∧
    (∀ bs, hotelBrandsOf h = some bs →
      ∀ a b, List.Sublist [a, b] p.preferred_hotels → a.2 = b.2 →
        List.Sublist [a.1, b.1] (firstOccurrences bs)) ∧
    (∀ a b, List.Sublist [a, b] p.preferred_rental_cars → a.2 = b.2 →
      List.Sublist [a.1, b.1] (firstOccurrences (rentalCarsOf h))) ∧
    (flightClassesOf h = [] → p.typical_flight_class = "Economy") ∧
    (h = [] → p = emptyPreferences) := by
  by_cases hnil : h = []
  · subst hnil
    have hpe : p = emptyPreferences := by
      simp [analyze_preferences] at hp
      exact hp.symm
    subst hpe
    refine ⟨by simp [emptyPreferences], by simp [emptyPreferences], by simp [emptyPreferences],
      by simp [emptyPreferences], by simp [emptyPreferences], by simp [emptyPreferences],
      ?_, ?_, ?_, fun _ => rfl, fun _ => rfl⟩
    · intro a b hsub
      simp [emptyPreferences] at hsub
    · intro bs hbs a b hsub
      simp [emptyPreferences] at hsub
    · intro a b hsub
      simp [emptyPreferences] at hsub
  · rcases hbr : hotelBrandsOf h with _ | bs0
    · rw [analyze_preferences, if_neg hnil, hbr] at hp
      cases hp
    · rw [analyze_preferences, if_neg hnil, hbr] at hp
      have hp' := (Option.some.injEq _ _).mp hp
      subst hp'
      refine ⟨most_common_length 3 _, most_common_length 3 _, most_common_length 3 _,
        most_common_sorted 3 _, most_common_sorted 3 _, most_common_sorted 3 _,
        ?_, ?_, ?_, ?_, fun he => absurd he hnil⟩
      · intro a b hsub htie
        exact most_common_tie_order 3 _ a b hsub htie
      · intro bs hbs a b hsub htie
        obtain rfl : bs0 = bs := Option.some.inj hbs
        exact most_common_tie_order 3 _ a b hsub htie
      · intro a b hsub htie
        exact most_common_tie_order 3 _ a b hsub htie
      · intro hfc
        simp [hfc, most_common, countsOf, firstOccurrences]

/-- C8 witness: the two-record history produces the expected profile and
the theorem applies to it. -/
theorem analyze_preferences_spec_witness :
    analyze_preferences histW = some prefsW ∧
    prefsW.preferred_airlines.length ≤ 3 ∧
    prefsW.preferred_airlines.Pairwise (fun a b => b.2 ≤ a.2) :=
  ⟨by decide,
   (analyze_preferences_spec histW prefsW (by decide)).1,
   (analyze_preferences_spec histW prefsW (by decide)).2.2.2.1⟩

/-- C9: contrary to the never-throws requirement, analyze_preferences
raises on a record whose Hotel field is a truthy whitespace-only string
(trip.Hotel.split()[0] raises IndexError); the embedding returns none,
modelling the raise, on this concrete one-record history. -/
theorem analyze_preferences_crash : analyze_preferences [crashRecord] = none := by decide

/-- C10: a record contributes to the airline, hotel, flight-class or
rental-car tally exactly when the field is truthy (and, for rental cars,
not the string none case-insensitively); tallies distribute over
concatenation; and every record of a nonempty history counts toward
total_trips. -/
theorem tallies_spec :
    (∀ t : TravelRecord,
      (airlinesOf [t] = [] ↔ t.airline = none ∨ t.airline = some ("")) ∧
      (hotelFields [t] = [] ↔ t.hotel = none ∨ t.hotel = some ("")) ∧
      (flightClassesOf [t] = [] ↔ t.flightClass = none ∨ t.flightClass = some ("")) ∧
      (rentalCarsOf [t] = [] ↔ t.rentalCar = none ∨ t.rentalCar = some ("") ∨
        ∃ s, t.rentalCar = some s ∧ toLowerL s.toList = ("none").toList)) ∧
    (∀ xs ys : List TravelRecord,
      airlinesOf (xs ++ ys) = airlinesOf xs ++ airlinesOf ys ∧
      hotelFields (xs ++ ys) = hotelFields xs ++ hotelFields ys ∧
      flightClassesOf (xs ++ ys) = flightClassesOf xs ++ flightClassesOf ys ∧
      rentalCarsOf (xs ++ ys) = rentalCarsOf xs ++ rentalCarsOf ys) ∧
    (∀ (h : List TravelRecord) (p : Preferences), h ≠ [] →
      analyze_preferences h = some p → p.total_trips = some h.length) := by
  refine ⟨?_, ?_, ?_⟩
  · intro t
    refine ⟨?_, ?_, ?_, ?_⟩
    · rcases ha : t.airline with _ | s
      · simp [airlinesOf, ha]
      · by_cases hs : s = "" <;> simp [airlinesOf, ha, hs]
    · rcases ha : t.hotel with _ | s
      · simp [hotelFields, ha]
      · by_cases hs : s = "" <;> simp [hotelFields, ha, hs]
    · rcases ha : t.flightClass with _ | s
      · simp [flightClassesOf, ha]
      · by_cases hs : s = "" <;> simp [flightClassesOf, ha, hs]
    · rcases ha : t.rentalCar with _ | s
      · simp [rentalCarsOf, ha]
      · by_cases hs : s = ""
        · simp [rentalCarsOf, ha, hs]
        · by_cases hn : toLowerL s.toList = ("none").toList <;>
            simp [rentalCarsOf, ha, hs, hn]
  · intro xs ys
    refine ⟨?_, ?_, ?_, ?_⟩ <;>
      simp [airlinesOf, hotelFields, flightClassesOf, rentalCarsOf]
  · intro h p hnil hp
    rcases hbr : hotelBrandsOf h with _ | bs
    · rw [analyze_preferences, if_neg hnil, hbr] at hp
      cases hp
    · rw [analyze_preferences, if_neg hnil, hbr] at hp
      have := (Option.some.injEq _ _).mp hp
      subst this
      rfl

/-- C10 witness: a record with Rental Car None is excluded from the car
tally while the one-record history still reports one total trip. -/
theorem tallies_spec_witness :
    rentalCarsOf [noneCarRecord] = [] ∧ prefsOne.total_trips = some 1 :=
  ⟨(tallies_spec.1 noneCarRecord).2.2.2.mpr
      (Or.inr (Or.inr ⟨"None", rfl, by decide⟩)),
   tallies_spec.2.2 [histRecord1] prefsOne (by decide) (by decide)⟩
